import Mathlib

/-!
Verification of the go-fastdfs client core (`client.go`): the connection-pool
registry (the background loop started in `init`, reached through
`storagePoolChan` / `fetchStoragePoolChan`), `getStoragePool`, and the nine
public dispatch operations.

External collaborators that live outside the file under verification
(`NewConnectionPool`, `fdfsCheckFile`, the tracker queries and the storage
executors) are passed in as parameters (oracles); `splitRemoteFileId` is
modelled from the spec.  Dispatch operations additionally return the list of
side-effect events they perform (tracker queries, registry lookups, storage
executor invocations), so that short-circuit claims can be stated.
-/

namespace Fastdfs

/-- Modelled from the spec: the Connection Pool component (spec section 4.1,
`conn_pool.go`) is not part of the file under verification; the registry and
dispatch layers treat a pool as an opaque handle to one fixed endpoint set
with its construction bounds.  `hosts` records the address list passed to
`NewConnectionPool`. -/
structure ConnectionPool where
  hosts : List String
  minConns : Nat
  maxConns : Nat
deriving DecidableEq, Repr

/-- The request record sent on `storagePoolChan` (source `type storagePool`,
client.go lines 36-40). -/
structure storagePool where
  addr : String
  minConns : Nat
  maxConns : Nat
deriving DecidableEq, Repr

/-- Source `type Config` (client.go lines 18-29): the tracker endpoints. -/
structure Config where
  Endpoints : List String
deriving DecidableEq, Repr

/-- Source `type FastDFSClient` (client.go lines 31-34). -/
structure FastDFSClient where
  pool : ConnectionPool
  timeout : Int
deriving DecidableEq, Repr

/-- The storage server descriptor returned by a tracker query; the dispatch
layer consumes only its address (spec section 3, Storage Server Descriptor). -/
structure StorageServer where
  ipAddr : String
deriving DecidableEq, Repr

/-- Result payload of an upload executor; opaque to the dispatch layer. -/
structure UploadFileResponse where
  groupName : String
  remoteFileId : String
deriving DecidableEq, Repr

/-- Result payload of a download executor; opaque to the dispatch layer. -/
structure DownloadFileResponse where
  remoteFileId : String
  content : List Nat
  downloadSize : Int
deriving DecidableEq, Repr

/-- Splits a character list at the first occurrence of the separator `/`.
Returns `none` when no separator occurs. -/
def splitFirst : List Char → Option (List Char × List Char)
  | [] => none
  | c :: cs =>
    if c = '/' then some ([], cs)
    else
      match splitFirst cs with
      | none => none
      | some (l, r) => some (c :: l, r)

/-- Modelled from the spec: `splitRemoteFileId` is not among the sources under
verification (only its callers are).  Spec sections 3 and 6: a remote file
identifier has the textual form `<group>/<remoteFilename>`, split on the first
separator into exactly two parts, which must both be non-empty; otherwise the
identifier is malformed and an error is returned.  On success the result
always has exactly two components, so the guard `len(tmp) != 2` at each call
site is subsumed by the error case. -/
def splitRemoteFileId (remoteFileId : String) : Except String (String × String) :=
  match splitFirst remoteFileId.data with
  | none => Except.error "malformed remoteFileId"
  | some (g, r) =>
    if g = [] ∨ r = [] then Except.error "malformed remoteFileId"
    else Except.ok (String.mk g, String.mk r)

/-! ## The pool registry authority

`storagePoolMap` is a package-level Go map mutated only inside the loop
started in `init` (client.go lines 45-70); we model it as an association list
with Go map lookup semantics. -/

/-- Lookup in the address-to-pool map (`storagePoolMap[ipAddr]`). -/
def mapLookup : List (String × ConnectionPool) → String → Option ConnectionPool
  | [], _ => none
  | (k, v) :: rest, a => if a = k then some v else mapLookup rest a

/-- One iteration of the registry loop body for a request received on
`storagePoolChan` (client.go lines 49-65): if the map already holds a pool for
the address, reply with it; otherwise call `NewConnectionPool` (the oracle
`np`) with the singleton address list and the request bounds, record the pool
on success, and reply with the pool or the error.  Returns the updated map,
the reply, and whether `NewConnectionPool` was called. -/
def processRequest (np : String → Nat → Nat → Except String ConnectionPool)
    (m : List (String × ConnectionPool)) (spd : storagePool) :
    List (String × ConnectionPool) × Except String ConnectionPool × Bool :=
  match mapLookup m spd.addr with
  | some sp => (m, Except.ok sp, false)
  | none =>
    match np spd.addr spd.minConns spd.maxConns with
    | Except.error e => (m, Except.error e, true)
    | Except.ok sp => ((spd.addr, sp) :: m, Except.ok sp, true)

/-- The registry authority serialized over a list of requests, in arrival
order: final map, the reply produced for each request (position-wise), and
the list of addresses for which a construction attempt (`NewConnectionPool`
call) was made. -/
def runRegistry (np : String → Nat → Nat → Except String ConnectionPool) :
    List (String × ConnectionPool) → List storagePool →
    List (String × ConnectionPool) × List (Except String ConnectionPool) × List String
  | m, [] => (m, [], [])
  | m, spd :: rest =>
    let p := processRequest np m spd
    let r := runRegistry np p.1 rest
    (r.1, p.2.1 :: r.2.1, (if p.2.2 then [spd.addr] else []) ++ r.2.2)

/-! ## The registry loop with the quit case, and reply delivery

The loop (client.go lines 45-70) is a `for` around a `select` with two cases:
a request on `storagePoolChan`, or a value on `quit`.  In Go, `break` inside
`select` exits only the `select` statement, not the enclosing `for`, so the
`quit` case leaves the loop state unchanged and the loop keeps running; we
embed that behaviour faithfully. -/

/-- A message the loop can react to: a registry request, or a shutdown signal
on the `quit` channel. -/
inductive LoopMsg where
  | request (spd : storagePool)
  | quitSignal
deriving DecidableEq, Repr

/-- The registry loop over a sequence of messages.  The `quitSignal` case
mirrors the source exactly: `break` exits only the `select`, so the map is
unchanged and the loop continues with the remaining messages. -/
def runLoop (np : String → Nat → Nat → Except String ConnectionPool) :
    List (String × ConnectionPool) → List LoopMsg →
    List (String × ConnectionPool) × List (Except String ConnectionPool)
  | m, [] => (m, [])
  | m, LoopMsg.request spd :: rest =>
    let p := processRequest np m spd
    let r := runLoop np p.1 rest
    (r.1, p.2.1 :: r.2)
  | m, LoopMsg.quitSignal :: rest => runLoop np m rest

/-- Delivery of registry replies to callers over the shared
`fetchStoragePoolChan` (client.go lines 14, 52, 60, 63, 266).  All callers
receive from the one global channel, and Go does not guarantee which of
several concurrently blocked receivers obtains a given value, so a delivery
schedule `sched` may pair caller `i` with the reply produced at any position
`sched i` of the processing order. -/
def deliverShared (replies : List (Except String ConnectionPool))
    (sched : Nat → Nat) (caller : Nat) : Option (Except String ConnectionPool) :=
  replies.get? (sched caller)

/-! ## The dispatch client -/

/-- The tracker query a dispatch operation issues to resolve its storage
server descriptor (the four `trackerQueryStorage*` calls in client.go). -/
inductive TrackerQuery where
  | storWithoutGroup
  | storWithGroup (groupName : String)
  | update (groupName remoteFilename : String)
  | fetch (groupName remoteFilename : String)
deriving DecidableEq, Repr

/-- A side effect performed by a dispatch operation: a tracker query, a pool
request sent to the registry (`getStoragePool`), or a storage executor
invocation. -/
inductive Event where
  | trackerQuery (q : TrackerQuery)
  | poolLookup (spd : storagePool)
  | storageOp (opName : String)
deriving DecidableEq, Repr

/-- The request record `getStoragePool` builds (client.go lines 258-262):
the target address with the fixed bounds 10 and 150. -/
def getStoragePoolReq (ipAddr : String) : storagePool :=
  { addr := ipAddr, minConns := 10, maxConns := 150 }

/-- `getStoragePool` (client.go lines 251-277): send the request to the
registry authority and return its reply.  The authority behaviour is the
oracle `registry`; sequentially its replies are those of `processRequest`. -/
def getStoragePool (registry : storagePool → Except String ConnectionPool)
    (ipAddr : String) : Except String ConnectionPool :=
  registry (getStoragePoolReq ipAddr)

/-- The external collaborators of the dispatch client, as oracles:
`fdfsCheckFile` (returns the error message of a failed local-file check, or
`none` when the check passes), the four tracker queries, the registry
authority reply, and the storage executors.  Each executor receives the pool
the dispatch code puts into `StorageClient`; because the source discards the
error from `getStoragePool`, that pool is `none` (a nil pointer) when the
lookup failed. -/
structure Env where
  fdfsCheckFile : String → Option String
  trackerQueryStorageStorWithoutGroup : Except String StorageServer
  trackerQueryStorageStorWithGroup : String → Except String StorageServer
  trackerQueryStorageUpdate : String → String → Except String StorageServer
  trackerQueryStorageFetch : String → String → Except String StorageServer
  registry : storagePool → Except String ConnectionPool
  storageUploadByFilename :
    Option ConnectionPool → StorageServer → String → Except String UploadFileResponse
  storageUploadByBuffer :
    Option ConnectionPool → StorageServer → List Nat → String → Except String UploadFileResponse
  storageUploadSlaveByFilename :
    Option ConnectionPool → StorageServer → String → String → String →
      Except String UploadFileResponse
  storageUploadSlaveByBuffer :
    Option ConnectionPool → StorageServer → List Nat → String → String →
      Except String UploadFileResponse
  storageUploadAppenderByFilename :
    Option ConnectionPool → StorageServer → String → Except String UploadFileResponse
  storageUploadAppenderByBuffer :
    Option ConnectionPool → StorageServer → List Nat → String → Except String UploadFileResponse
  storageDeleteFile : Option ConnectionPool → StorageServer → String → Option String
  storageDownloadToFile :
    Option ConnectionPool → StorageServer → String → Int → Int → String →
      Except String DownloadFileResponse
  storageDownloadToBuffer :
    Option ConnectionPool → StorageServer → List Nat → Int → Int → String →
      Except String DownloadFileResponse

/-- `New` (client.go lines 73-80): build the tracker connection pool with the
fixed bounds 10 and 150.  Besides the result, we return the argument triple
passed to `NewConnectionPool` (the oracle `npool`). -/
def New (npool : List String → Nat → Nat → Except String ConnectionPool)
    (cfg : Config) : Except String FastDFSClient × (List String × Nat × Nat) :=
  (match npool cfg.Endpoints 10 150 with
    | Except.error e => Except.error e
    | Except.ok pool => Except.ok { pool := pool, timeout := 0 },
   (cfg.Endpoints, 10, 150))

/-- `UploadByFilename` (client.go lines 86-101).  The error returned by
`getStoragePool` is discarded by the source (`storagePool, err := ...` with
`err` never checked), so the executor runs with `poolRes.toOption`. -/
def UploadByFilename (env : Env) (filename : String) :
    Except String UploadFileResponse × List Event :=
  match env.fdfsCheckFile filename with
  | some msg => (Except.error (msg ++ "(uploading)"), [])
  | none =>
    match env.trackerQueryStorageStorWithoutGroup with
    | Except.error e =>
      (Except.error e, [Event.trackerQuery TrackerQuery.storWithoutGroup])
    | Except.ok storeServ =>
      let poolRes := getStoragePool env.registry storeServ.ipAddr
      (env.storageUploadByFilename poolRes.toOption storeServ filename,
       [Event.trackerQuery TrackerQuery.storWithoutGroup,
        Event.poolLookup (getStoragePoolReq storeServ.ipAddr),
        Event.storageOp "storageUploadByFilename"])

/-- `UploadByBuffer` (client.go lines 103-114). -/
def UploadByBuffer (env : Env) (filebuffer : List Nat) (fileExtName : String) :
    Except String UploadFileResponse × List Event :=
  match env.trackerQueryStorageStorWithoutGroup with
  | Except.error e =>
    (Except.error e, [Event.trackerQuery TrackerQuery.storWithoutGroup])
  | Except.ok storeServ =>
    let poolRes := getStoragePool env.registry storeServ.ipAddr
    (env.storageUploadByBuffer poolRes.toOption storeServ filebuffer fileExtName,
     [Event.trackerQuery TrackerQuery.storWithoutGroup,
      Event.poolLookup (getStoragePoolReq storeServ.ipAddr),
      Event.storageOp "storageUploadByBuffer"])

/-- `UploadSlaveByFilename` (client.go lines 116-138): local-file check first,
then identifier split, then the with-group tracker query. -/
def UploadSlaveByFilename (env : Env) (filename remoteFileId prefixName : String) :
    Except String UploadFileResponse × List Event :=
  match env.fdfsCheckFile filename with
  | some msg => (Except.error (msg ++ "(uploading)"), [])
  | none =>
    match splitRemoteFileId remoteFileId with
    | Except.error e => (Except.error e, [])
    | Except.ok (groupName, remoteFilename) =>
      match env.trackerQueryStorageStorWithGroup groupName with
      | Except.error e =>
        (Except.error e, [Event.trackerQuery (TrackerQuery.storWithGroup groupName)])
      | Except.ok storeServ =>
        let poolRes := getStoragePool env.registry storeServ.ipAddr
        (env.storageUploadSlaveByFilename poolRes.toOption storeServ filename
            prefixName remoteFilename,
         [Event.trackerQuery (TrackerQuery.storWithGroup groupName),
          Event.poolLookup (getStoragePoolReq storeServ.ipAddr),
          Event.storageOp "storageUploadSlaveByFilename"])

/-- `UploadSlaveByBuffer` (client.go lines 140-158). -/
def UploadSlaveByBuffer (env : Env) (filebuffer : List Nat)
    (remoteFileId fileExtName : String) :
    Except String UploadFileResponse × List Event :=
  match splitRemoteFileId remoteFileId with
  | Except.error e => (Except.error e, [])
  | Except.ok (groupName, remoteFilename) =>
    match env.trackerQueryStorageStorWithGroup groupName with
    | Except.error e =>
      (Except.error e, [Event.trackerQuery (TrackerQuery.storWithGroup groupName)])
    | Except.ok storeServ =>
      let poolRes := getStoragePool env.registry storeServ.ipAddr
      (env.storageUploadSlaveByBuffer poolRes.toOption storeServ filebuffer
          remoteFilename fileExtName,
       [Event.trackerQuery (TrackerQuery.storWithGroup groupName),
        Event.poolLookup (getStoragePoolReq storeServ.ipAddr),
        Event.storageOp "storageUploadSlaveByBuffer"])

/-- `UploadAppenderByFilename` (client.go lines 160-175). -/
def UploadAppenderByFilename (env : Env) (filename : String) :
    Except String UploadFileResponse × List Event :=
  match env.fdfsCheckFile filename with
  | some msg => (Except.error (msg ++ "(uploading)"), [])
  | none =>
    match env.trackerQueryStorageStorWithoutGroup with
    | Except.error e =>
      (Except.error e, [Event.trackerQuery TrackerQuery.storWithoutGroup])
    | Except.ok storeServ =>
      let poolRes := getStoragePool env.registry storeServ.ipAddr
      (env.storageUploadAppenderByFilename poolRes.toOption storeServ filename,
       [Event.trackerQuery TrackerQuery.storWithoutGroup,
        Event.poolLookup (getStoragePoolReq storeServ.ipAddr),
        Event.storageOp "storageUploadAppenderByFilename"])

/-- `UploadAppenderByBuffer` (client.go lines 177-188). -/
def UploadAppenderByBuffer (env : Env) (filebuffer : List Nat) (fileExtName : String) :
    Except String UploadFileResponse × List Event :=
  match env.trackerQueryStorageStorWithoutGroup with
  | Except.error e =>
    (Except.error e, [Event.trackerQuery TrackerQuery.storWithoutGroup])
  | Except.ok storeServ =>
    let poolRes := getStoragePool env.registry storeServ.ipAddr
    (env.storageUploadAppenderByBuffer poolRes.toOption storeServ filebuffer fileExtName,
     [Event.trackerQuery TrackerQuery.storWithoutGroup,
      Event.poolLookup (getStoragePoolReq storeServ.ipAddr),
      Event.storageOp "storageUploadAppenderByBuffer"])

/-- `DeleteFile` (client.go lines 190-208); the result is the returned error,
`none` meaning success (a nil Go error). -/
def DeleteFile (env : Env) (remoteFileId : String) : Option String × List Event :=
  match splitRemoteFileId remoteFileId with
  | Except.error e => (some e, [])
  | Except.ok (groupName, remoteFilename) =>
    match env.trackerQueryStorageUpdate groupName remoteFilename with
    | Except.error e =>
      (some e, [Event.trackerQuery (TrackerQuery.update groupName remoteFilename)])
    | Except.ok storeServ =>
      let poolRes := getStoragePool env.registry storeServ.ipAddr
      (env.storageDeleteFile poolRes.toOption storeServ remoteFilename,
       [Event.trackerQuery (TrackerQuery.update groupName remoteFilename),
        Event.poolLookup (getStoragePoolReq storeServ.ipAddr),
        Event.storageOp "storageDeleteFile"])

/-- `DownloadToFile` (client.go lines 210-228). -/
def DownloadToFile (env : Env) (localFilename remoteFileId : String)
    (offset downloadSize : Int) :
    Except String DownloadFileResponse × List Event :=
  match splitRemoteFileId remoteFileId with
  | Except.error e => (Except.error e, [])
  | Except.ok (groupName, remoteFilename) =>
    match env.trackerQueryStorageFetch groupName remoteFilename with
    | Except.error e =>
      (Except.error e, [Event.trackerQuery (TrackerQuery.fetch groupName remoteFilename)])
    | Except.ok storeServ =>
      let poolRes := getStoragePool env.registry storeServ.ipAddr
      (env.storageDownloadToFile poolRes.toOption storeServ localFilename offset
          downloadSize remoteFilename,
       [Event.trackerQuery (TrackerQuery.fetch groupName remoteFilename),
        Event.poolLookup (getStoragePoolReq storeServ.ipAddr),
        Event.storageOp "storageDownloadToFile"])

/-- `DownloadToBuffer` (client.go lines 230-249); the source passes a nil
`fileBuffer` slice to the executor, modelled as the empty list. -/
def DownloadToBuffer (env : Env) (remoteFileId : String)
    (offset downloadSize : Int) :
    Except String DownloadFileResponse × List Event :=
  match splitRemoteFileId remoteFileId with
  | Except.error e => (Except.error e, [])
  | Except.ok (groupName, remoteFilename) =>
    match env.trackerQueryStorageFetch groupName remoteFilename with
    | Except.error e =>
      (Except.error e, [Event.trackerQuery (TrackerQuery.fetch groupName remoteFilename)])
    | Except.ok storeServ =>
      let poolRes := getStoragePool env.registry storeServ.ipAddr
      (env.storageDownloadToBuffer poolRes.toOption storeServ [] offset
          downloadSize remoteFilename,
       [Event.trackerQuery (TrackerQuery.fetch groupName remoteFilename),
        Event.poolLookup (getStoragePoolReq storeServ.ipAddr),
        Event.storageOp "storageDownloadToBuffer"])

/-- The tracker queries contained in an event trace, in order. -/
def queriesOf (evs : List Event) : List TrackerQuery :=
  evs.filterMap fun e =>
    match e with
    | Event.trackerQuery q => some q
    | _ => none

/-- Holds of an event unless it is a pool request whose bounds differ from
the fixed pair (10, 150). -/
def poolBoundsFixed : Event → Bool
  | Event.poolLookup spd => spd.minConns == 10 && spd.maxConns == 150
  | _ => true

/-! ## Concrete instances used by witnesses and counterexamples -/

/-- A pool constructor that always succeeds, recording the requested address
like `NewConnectionPool([]string{ipAddr}, ...)` does, with fixed bounds. -/
def npConst : String → Nat → Nat → Except String ConnectionPool :=
  fun a _ _ => Except.ok ⟨[a], 10, 150⟩

/-- A pool constructor that always fails with a connectivity error. -/
def npFail : String → Nat → Nat → Except String ConnectionPool :=
  fun _ _ _ => Except.error "storage unreachable"

/-- The pool `npConst` builds for the address `10.0.1.5`. -/
def poolA : ConnectionPool := ⟨["10.0.1.5"], 10, 150⟩

/-- A storage server descriptor. -/
def servA : StorageServer := ⟨"10.0.1.5"⟩

/-- An upload response payload. -/
def respA : UploadFileResponse := ⟨"group1", "group1/M00/00/00/abc.jpg"⟩

/-- A download response payload. -/
def drespA : DownloadFileResponse := ⟨"group1/M00/00/00/abc.jpg", [1, 2, 3], 3⟩

/-- An environment in which every collaborator succeeds. -/
def envA : Env where
  fdfsCheckFile := fun _ => none
  trackerQueryStorageStorWithoutGroup := Except.ok servA
  trackerQueryStorageStorWithGroup := fun _ => Except.ok servA
  trackerQueryStorageUpdate := fun _ _ => Except.ok servA
  trackerQueryStorageFetch := fun _ _ => Except.ok servA
  registry := fun _ => Except.ok poolA
  storageUploadByFilename := fun _ _ _ => Except.ok respA
  storageUploadByBuffer := fun _ _ _ _ => Except.ok respA
  storageUploadSlaveByFilename := fun _ _ _ _ _ => Except.ok respA
  storageUploadSlaveByBuffer := fun _ _ _ _ _ => Except.ok respA
  storageUploadAppenderByFilename := fun _ _ _ => Except.ok respA
  storageUploadAppenderByBuffer := fun _ _ _ _ => Except.ok respA
  storageDeleteFile := fun _ _ _ => none
  storageDownloadToFile := fun _ _ _ _ _ _ => Except.ok drespA
  storageDownloadToBuffer := fun _ _ _ _ _ _ => Except.ok drespA

/-- Like `envA`, but the local-file check fails. -/
def envCF : Env :=
  { envA with fdfsCheckFile := fun _ => some "open /tmp/x: no such file" }

/-- Like `envA`, but the registry reply is a pool error, and the executors
report whether they were invoked with a nil pool. -/
def envPF : Env :=
  { envA with
    registry := fun _ => Except.error "storage unreachable"
    storageUploadByFilename := fun p _ _ =>
      match p with
      | none => Except.error "executor invoked with nil pool"
      | some _ => Except.ok respA
    storageDeleteFile := fun p _ _ =>
      match p with
      | none => some "executor invoked with nil pool"
      | some _ => none }

/-- Two registry requests for distinct addresses with the fixed bounds. -/
def reqsAB : List storagePool := [⟨"10.0.1.5", 10, 150⟩, ⟨"10.0.1.6", 10, 150⟩]

/-- Two registry requests for the same address with the fixed bounds. -/
def reqsAA : List storagePool := [⟨"10.0.1.5", 10, 150⟩, ⟨"10.0.1.5", 10, 150⟩]

/-- A pool constructor over an address list that always succeeds, recording
its arguments (used as the `NewConnectionPool` oracle of `New`). -/
def npList : List String → Nat → Nat → Except String ConnectionPool :=
  fun hosts mi ma => Except.ok ⟨hosts, mi, ma⟩

/-! ## Registry lemmas -/

theorem processRequest_lookup_some (np : String → Nat → Nat → Except String ConnectionPool)
    (m : List (String × ConnectionPool)) (spd : storagePool) (p : ConnectionPool)
    (h : mapLookup m spd.addr = some p) :
    processRequest np m spd = (m, Except.ok p, false) := by
  unfold processRequest
  rw [h]

theorem processRequest_lookup_none_error (np : String → Nat → Nat → Except String ConnectionPool)
    (m : List (String × ConnectionPool)) (spd : storagePool) (e : String)
    (h : mapLookup m spd.addr = none)
    (hnp : np spd.addr spd.minConns spd.maxConns = Except.error e) :
    processRequest np m spd = (m, Except.error e, true) := by
  unfold processRequest
  rw [h, hnp]

theorem processRequest_lookup_none_ok (np : String → Nat → Nat → Except String ConnectionPool)
    (m : List (String × ConnectionPool)) (spd : storagePool) (p : ConnectionPool)
    (h : mapLookup m spd.addr = none)
    (hnp : np spd.addr spd.minConns spd.maxConns = Except.ok p) :
    processRequest np m spd = ((spd.addr, p) :: m, Except.ok p, true) := by
  unfold processRequest
  rw [h, hnp]

theorem processRequest_preserves (np : String → Nat → Nat → Except String ConnectionPool)
    (m : List (String × ConnectionPool)) (spd : storagePool) (a : String) (p : ConnectionPool)
    (h : mapLookup m a = some p) :
    mapLookup (processRequest np m spd).1 a = some p := by
  unfold processRequest
  cases hl : mapLookup m spd.addr with
  | some sp => exact h
  | none =>
    cases hnp : np spd.addr spd.minConns spd.maxConns with
    | error e => exact h
    | ok sp =>
      show mapLookup ((spd.addr, sp) :: m) a = some p
      unfold mapLookup
      by_cases hd : a = spd.addr
      · rw [hd] at h
        rw [h] at hl
        exact absurd hl (by simp)
      · rw [if_neg hd]
        exact h

theorem processRequest_lookup_none_of_ne (np : String → Nat → Nat → Except String ConnectionPool)
    (m : List (String × ConnectionPool)) (spd : storagePool) (a : String)
    (hd : spd.addr ≠ a) (h : mapLookup m a = none) :
    mapLookup (processRequest np m spd).1 a = none := by
  unfold processRequest
  cases hl : mapLookup m spd.addr with
  | some sp => exact h
  | none =>
    cases hnp : np spd.addr spd.minConns spd.maxConns with
    | error e => exact h
    | ok sp =>
      show mapLookup ((spd.addr, sp) :: m) a = none
      unfold mapLookup
      rw [if_neg fun hh => hd hh.symm]
      exact h

theorem runRegistry_cons (np : String → Nat → Nat → Except String ConnectionPool)
    (m : List (String × ConnectionPool)) (spd : storagePool) (rest : List storagePool) :
    runRegistry np m (spd :: rest) =
      ((runRegistry np (processRequest np m spd).1 rest).1,
       (processRequest np m spd).2.1 :: (runRegistry np (processRequest np m spd).1 rest).2.1,
       (if (processRequest np m spd).2.2 then [spd.addr] else []) ++
         (runRegistry np (processRequest np m spd).1 rest).2.2) := rfl

theorem runRegistry_replies_length (np : String → Nat → Nat → Except String ConnectionPool)
    (reqs : List storagePool) :
    ∀ m : List (String × ConnectionPool), (runRegistry np m reqs).2.1.length = reqs.length := by
  induction reqs with
  | nil => intro m; rfl
  | cons spd rest ih =>
    intro m
    rw [runRegistry_cons]
    simp [ih]

theorem runRegistry_of_bound (np : String → Nat → Nat → Except String ConnectionPool)
    (a : String) (p : ConnectionPool) (reqs : List storagePool) :
    ∀ m : List (String × ConnectionPool), mapLookup m a = some p →
      mapLookup (runRegistry np m reqs).1 a = some p ∧
      (runRegistry np m reqs).2.2.count a = 0 ∧
      ∀ pr ∈ reqs.zip (runRegistry np m reqs).2.1, pr.1.addr = a → pr.2 = Except.ok p := by
  induction reqs with
  | nil =>
    intro m hm
    refine ⟨hm, rfl, ?_⟩
    intro pr hpr
    simp [runRegistry] at hpr
  | cons spd rest ih =>
    intro m hm
    have hnext : mapLookup (processRequest np m spd).1 a = some p :=
      processRequest_preserves np m spd a p hm
    obtain ⟨ih1, ih2, ih3⟩ := ih (processRequest np m spd).1 hnext
    rw [runRegistry_cons]
    refine ⟨ih1, ?_, ?_⟩
    · rw [List.count_append, ih2]
      by_cases hd : spd.addr = a
      · have hb : mapLookup m spd.addr = some p := by rw [hd]; exact hm
        rw [processRequest_lookup_some np m spd p hb]
        simp
      · cases hatt : (processRequest np m spd).2.2 <;> simp [hatt, List.count_singleton, hd]
    · intro pr hpr
      rw [List.zip_cons_cons, List.mem_cons] at hpr
      cases hpr with
      | inl hh =>
        intro haddr
        rw [hh]
        have hb : mapLookup m spd.addr = some p := by
          have : spd.addr = a := by rw [hh] at haddr; exact haddr
          rw [this]; exact hm
        rw [processRequest_lookup_some np m spd p hb]
      | inr hh => exact ih3 pr hh

theorem runRegistry_of_unbound (np : String → Nat → Nat → Except String ConnectionPool)
    (a : String) (p : ConnectionPool)
    (hdet : ∀ mi ma : Nat, np a mi ma = Except.ok p) (reqs : List storagePool) :
    ∀ m : List (String × ConnectionPool), mapLookup m a = none →
      (mapLookup (runRegistry np m reqs).1 a = none ∨
        mapLookup (runRegistry np m reqs).1 a = some p) ∧
      (runRegistry np m reqs).2.2.count a ≤ 1 ∧
      ((∃ r ∈ reqs, r.addr = a) → (runRegistry np m reqs).2.2.count a = 1) ∧
      ∀ pr ∈ reqs.zip (runRegistry np m reqs).2.1, pr.1.addr = a → pr.2 = Except.ok p := by
  induction reqs with
  | nil =>
    intro m hm
    refine ⟨Or.inl hm, by simp [runRegistry], by simp [runRegistry], ?_⟩
    intro pr hpr
    simp [runRegistry] at hpr
  | cons spd rest ih =>
    intro m hm
    by_cases hd : spd.addr = a
    · -- first request for `a`: exactly here the single construction happens
      subst hd
      have hnp : np spd.addr spd.minConns spd.maxConns = Except.ok p :=
        hdet spd.minConns spd.maxConns
      have hpr : processRequest np m spd = ((spd.addr, p) :: m, Except.ok p, true) :=
        processRequest_lookup_none_ok np m spd p hm hnp
      have hbound : mapLookup ((spd.addr, p) :: m) spd.addr = some p := by
        unfold mapLookup
        rw [if_pos rfl]
      obtain ⟨b1, b2, b3⟩ := runRegistry_of_bound np spd.addr p rest ((spd.addr, p) :: m) hbound
      rw [runRegistry_cons, hpr]
      refine ⟨Or.inr b1, ?_, ?_, ?_⟩
      · simp [List.count_append, b2]
      · intro _
        simp [List.count_append, b2]
      · intro pr2 hpr2
        rw [List.zip_cons_cons, List.mem_cons] at hpr2
        cases hpr2 with
        | inl hh => intro _; rw [hh]
        | inr hh => exact b3 pr2 hh
    · -- a request for a different address leaves the binding state of `a` alone
      have hnext : mapLookup (processRequest np m spd).1 a = none :=
        processRequest_lookup_none_of_ne np m spd a hd hm
      obtain ⟨ih1, ih2, ih3, ih4⟩ := ih (processRequest np m spd).1 hnext
      rw [runRegistry_cons]
      have hcnt : (if (processRequest np m spd).2.2 then [spd.addr] else []).count a = 0 := by
        cases hatt : (processRequest np m spd).2.2 <;> simp [List.count_singleton, hd]
      refine ⟨ih1, ?_, ?_, ?_⟩
      · rw [List.count_append, hcnt]
        simpa using ih2
      · intro hex
        obtain ⟨r, hr, hra⟩ := hex
        rw [List.mem_cons] at hr
        cases hr with
        | inl hh => exact absurd hra (by rw [hh]; exact hd)
        | inr hh =>
          rw [List.count_append, hcnt]
          simpa using ih3 ⟨r, hh, hra⟩
      · intro pr2 hpr2
        rw [List.zip_cons_cons, List.mem_cons] at hpr2
        cases hpr2 with
        | inl hh =>
          intro haddr
          rw [hh] at haddr
          exact absurd haddr hd
        | inr hh => exact ih4 pr2 hh

/-- Claim C1: the registry records at most one pool per address.  With a
constructor that yields `p` for address `a`: there is one reply per request;
the map entry for `a` is only ever absent or bound to `p` (never replaced by
another pool); once bound to `p` it stays bound to `p` and no further
construction for `a` occurs; over any request sequence at most one
construction attempt for `a` is made, and exactly one when starting unbound
with at least one request for `a`; and every request for `a` is answered with
the same pool `p`. -/
theorem registry_at_most_one_pool (np : String → Nat → Nat → Except String ConnectionPool)
    (a : String) (p : ConnectionPool) (reqs : List storagePool)
    (m : List (String × ConnectionPool))
    (hdet : ∀ mi ma : Nat, np a mi ma = Except.ok p)
    (hm : mapLookup m a = none ∨ mapLookup m a = some p) :
    (runRegistry np m reqs).2.1.length = reqs.length ∧
    (mapLookup (runRegistry np m reqs).1 a = none ∨
      mapLookup (runRegistry np m reqs).1 a = some p) ∧
    (mapLookup m a = some p →
      mapLookup (runRegistry np m reqs).1 a = some p ∧
      (runRegistry np m reqs).2.2.count a = 0) ∧
    (runRegistry np m reqs).2.2.count a ≤ 1 ∧
    (mapLookup m a = none → (∃ r ∈ reqs, r.addr = a) →
      (runRegistry np m reqs).2.2.count a = 1) ∧
    (∀ pr ∈ reqs.zip (runRegistry np m reqs).2.1, pr.1.addr = a → pr.2 = Except.ok p) := by
  cases hm with
  | inl hnone =>
    obtain ⟨u1, u2, u3, u4⟩ := runRegistry_of_unbound np a p hdet reqs m hnone
    refine ⟨runRegistry_replies_length np reqs m, u1, ?_, u2, fun _ => u3, u4⟩
    intro hsome
    rw [hnone] at hsome
    exact absurd hsome (by simp)
  | inr hsome =>
    obtain ⟨b1, b2, b3⟩ := runRegistry_of_bound np a p reqs m hsome
    refine ⟨runRegistry_replies_length np reqs m, Or.inr b1, fun _ => ⟨b1, b2⟩, ?_, ?_, b3⟩
    · rw [b2]; exact Nat.zero_le 1
    · intro hnone
      rw [hsome] at hnone
      exact absurd hnone (by simp)

theorem registry_at_most_one_pool_witness :
    (runRegistry npConst [] reqsAA).2.2.count "10.0.1.5" ≤ 1 :=
  (registry_at_most_one_pool npConst "10.0.1.5" poolA reqsAA []
    (fun _ _ => rfl) (Or.inl rfl)).2.2.2.1

/-- Claim C4: a registry request for an address whose pool already exists
returns the existing pool, leaves the map unchanged, and does not call
`NewConnectionPool` (the `false` component records that no construction
attempt was made). -/
theorem registry_idempotent_reuse (np : String → Nat → Nat → Except String ConnectionPool)
    (m : List (String × ConnectionPool)) (spd : storagePool) (p : ConnectionPool)
    (h : mapLookup m spd.addr = some p) :
    processRequest np m spd = (m, Except.ok p, false) :=
  processRequest_lookup_some np m spd p h

theorem registry_idempotent_reuse_witness :
    processRequest npFail [("10.0.1.5", poolA)] ⟨"10.0.1.5", 10, 150⟩
      = ([("10.0.1.5", poolA)], Except.ok poolA, false) :=
  registry_idempotent_reuse npFail [("10.0.1.5", poolA)] ⟨"10.0.1.5", 10, 150⟩ poolA rfl

/-- Claim C5: when pool construction fails, the registry returns the error
and the map is unchanged (no entry is recorded for the address), so repeating
the same request once the constructor succeeds performs a fresh construction
attempt and records the new pool. -/
theorem registry_failure_not_sticky
    (np np2 : String → Nat → Nat → Except String ConnectionPool)
    (m : List (String × ConnectionPool)) (spd : storagePool) (e : String) (p : ConnectionPool)
    (h : mapLookup m spd.addr = none)
    (hf : np spd.addr spd.minConns spd.maxConns = Except.error e)
    (h2 : np2 spd.addr spd.minConns spd.maxConns = Except.ok p) :
    processRequest np m spd = (m, Except.error e, true) ∧
    processRequest np2 (processRequest np m spd).1 spd
      = ((spd.addr, p) :: m, Except.ok p, true) := by
  have hfst : processRequest np m spd = (m, Except.error e, true) :=
    processRequest_lookup_none_error np m spd e h hf
  refine ⟨hfst, ?_⟩
  rw [hfst]
  exact processRequest_lookup_none_ok np2 m spd p h h2

theorem registry_failure_not_sticky_witness :
    processRequest npFail [] ⟨"10.0.1.5", 10, 150⟩
      = ([], Except.error "storage unreachable", true) ∧
    processRequest npConst (processRequest npFail [] ⟨"10.0.1.5", 10, 150⟩).1
        ⟨"10.0.1.5", 10, 150⟩
      = ([("10.0.1.5", poolA)], Except.ok poolA, true) :=
  registry_failure_not_sticky npFail npConst [] ⟨"10.0.1.5", 10, 150⟩
    "storage unreachable" poolA rfl rfl rfl

/-- Claim C2 (amended): a malformed remote file identifier short-circuits the
five identifier-taking operations with the format error and no tracker query,
pool request, or storage call (the empty event trace); for
`UploadSlaveByFilename` this holds provided the local-file pre-check passes,
because that check runs first and its error takes precedence. -/
theorem malformed_id_short_circuit (env : Env) (lf fn pfx ext rid e : String)
    (buf : List Nat) (off sz : Int)
    (h : splitRemoteFileId rid = Except.error e)
    (hc : env.fdfsCheckFile fn = none) :
    DeleteFile env rid = (some e, []) ∧
    DownloadToFile env lf rid off sz = (Except.error e, []) ∧
    DownloadToBuffer env rid off sz = (Except.error e, []) ∧
    UploadSlaveByFilename env fn rid pfx = (Except.error e, []) ∧
    UploadSlaveByBuffer env buf rid ext = (Except.error e, []) := by
  refine ⟨?_, ?_, ?_, ?_, ?_⟩ <;>
    simp [DeleteFile, DownloadToFile, DownloadToBuffer, UploadSlaveByFilename,
      UploadSlaveByBuffer, h, hc]

theorem malformed_id_short_circuit_witness :
    DeleteFile envA "noSlashHere" = (some "malformed remoteFileId", []) :=
  (malformed_id_short_circuit envA "/tmp/l" "/tmp/f" "_t" "jpg" "noSlashHere"
    "malformed remoteFileId" [] 0 0 rfl rfl).1

/-- Counterexample to claim C2 as stated: when the local file is unreadable,
`UploadSlaveByFilename` with a malformed identifier returns the local-I/O
error (with the upload suffix), not the format error, because the file check
precedes the identifier check in the source. -/
theorem malformed_slave_upload_check_first :
    splitRemoteFileId "noSlashHere" = Except.error "malformed remoteFileId" ∧
    (UploadSlaveByFilename envCF "/tmp/x" "noSlashHere" "_t").1
      = Except.error "open /tmp/x: no such file(uploading)" ∧
    (UploadSlaveByFilename envCF "/tmp/x" "noSlashHere" "_t").1
      ≠ Except.error "malformed remoteFileId" := by
  refine ⟨rfl, rfl, ?_⟩
  intro hcontra
  have h1 : (UploadSlaveByFilename envCF "/tmp/x" "noSlashHere" "_t").1
      = Except.error "open /tmp/x: no such file(uploading)" := rfl
  rw [h1] at hcontra
  exact absurd (Except.error.inj hcontra) (by decide)

/-- Claim C3 is violated by the code: every dispatch operation assigns the
error from `getStoragePool` but never checks it.  With a registry whose reply
is an error, `UploadByFilename` and `DeleteFile` still invoke the storage
executor (with a nil pool) and return its result; the pool error is never
surfaced to the caller. -/
theorem pool_error_ignored_executor_invoked :
    envPF.registry (getStoragePoolReq "10.0.1.5") = Except.error "storage unreachable" ∧
    UploadByFilename envPF "/tmp/a.jpg"
      = (Except.error "executor invoked with nil pool",
         [Event.trackerQuery TrackerQuery.storWithoutGroup,
          Event.poolLookup ⟨"10.0.1.5", 10, 150⟩,
          Event.storageOp "storageUploadByFilename"]) ∧
    DeleteFile envPF "group1/abc.jpg"
      = (some "executor invoked with nil pool",
         [Event.trackerQuery (TrackerQuery.update "group1" "abc.jpg"),
          Event.poolLookup ⟨"10.0.1.5", 10, 150⟩,
          Event.storageOp "storageDeleteFile"]) ∧
    (UploadByFilename envPF "/tmp/a.jpg").1 ≠ Except.error "storage unreachable" := by
  refine ⟨rfl, rfl, rfl, ?_⟩
  intro hcontra
  have h1 : (UploadByFilename envPF "/tmp/a.jpg").1
      = Except.error "executor invoked with nil pool" := rfl
  rw [h1] at hcontra
  exact absurd (Except.error.inj hcontra) (by decide)

/-- Claim C6 is violated by the code: both registry callers receive from the
one shared `fetchStoragePoolChan`, and Go does not guarantee which blocked
receiver obtains a sent value.  For two concurrent requests for the distinct
addresses `10.0.1.5` and `10.0.1.6`, the delivery schedule that pairs each
caller with the other reply is realizable, and under it the caller that
requested `10.0.1.5` receives the pool constructed for `10.0.1.6`. -/
theorem shared_reply_cross_talk :
    (runRegistry npConst [] reqsAB).2.1
      = [Except.ok ⟨["10.0.1.5"], 10, 150⟩, Except.ok ⟨["10.0.1.6"], 10, 150⟩] ∧
    (reqsAB.get? 0).map storagePool.addr = some "10.0.1.5" ∧
    deliverShared (runRegistry npConst [] reqsAB).2.1 (fun i => 1 - i) 0
      = some (Except.ok ⟨["10.0.1.6"], 10, 150⟩) :=
  ⟨rfl, rfl, rfl⟩

/-- Claim C7: a failed local-file pre-check makes each filename-based upload
return the local error message with the suffix `(uploading)` appended, with
no tracker, registry, or storage interaction (the empty event trace). -/
theorem upload_precheck_error_suffix (env : Env) (fn rid pfx msg : String)
    (hc : env.fdfsCheckFile fn = some msg) :
    UploadByFilename env fn = (Except.error (msg ++ "(uploading)"), []) ∧
    UploadSlaveByFilename env fn rid pfx = (Except.error (msg ++ "(uploading)"), []) ∧
    UploadAppenderByFilename env fn = (Except.error (msg ++ "(uploading)"), []) := by
  refine ⟨?_, ?_, ?_⟩ <;>
    simp [UploadByFilename, UploadSlaveByFilename, UploadAppenderByFilename, hc]

theorem upload_precheck_error_suffix_witness :
    UploadByFilename envCF "/tmp/x"
      = (Except.error "open /tmp/x: no such file(uploading)", []) :=
  (upload_precheck_error_suffix envCF "/tmp/x" "group1/abc.jpg" "_t"
    "open /tmp/x: no such file" rfl).1

/-- Claim C10 is violated by the code: in the source, `break` inside `select`
exits only the `select` statement, so even when the loop reacts to a quit
signal it keeps running; here, a registry request arriving after the quit
signal is still processed (a pool is constructed, recorded and replied).
Moreover the `quit` channel itself is never initialized, so `Close` blocks
forever; see the results log. -/
theorem quit_does_not_stop_loop :
    runLoop npConst [] [LoopMsg.quitSignal, LoopMsg.request ⟨"10.0.1.5", 10, 150⟩]
      = ([("10.0.1.5", poolA)], [Except.ok poolA]) := rfl

/-- Claim C8: `New` calls `NewConnectionPool` on the configured tracker
endpoints with the fixed bounds 10 and 150 (and wraps the resulting pool in
the client handle), and every dispatch operation, whatever its arguments and
environment, only ever sends the registry pool requests carrying those same
fixed bounds. -/
theorem fixed_pool_bounds (npool : List String → Nat → Nat → Except String ConnectionPool)
    (cfg : Config) (env : Env) (p : ConnectionPool)
    (fn lf pfx ext rid : String) (buf : List Nat) (off sz : Int)
    (hok : npool cfg.Endpoints 10 150 = Except.ok p) :
    (New npool cfg).2 = (cfg.Endpoints, 10, 150) ∧
    (New npool cfg).1 = Except.ok { pool := p, timeout := 0 } ∧
    (UploadByFilename env fn).2.all poolBoundsFixed = true ∧
    (UploadByBuffer env buf ext).2.all poolBoundsFixed = true ∧
    (UploadSlaveByFilename env fn rid pfx).2.all poolBoundsFixed = true ∧
    (UploadSlaveByBuffer env buf rid ext).2.all poolBoundsFixed = true ∧
    (UploadAppenderByFilename env fn).2.all poolBoundsFixed = true ∧
    (UploadAppenderByBuffer env buf ext).2.all poolBoundsFixed = true ∧
    (DeleteFile env rid).2.all poolBoundsFixed = true ∧
    (DownloadToFile env lf rid off sz).2.all poolBoundsFixed = true ∧
    (DownloadToBuffer env rid off sz).2.all poolBoundsFixed = true := by
  refine ⟨rfl, ?_, ?_, ?_, ?_, ?_, ?_, ?_, ?_, ?_, ?_⟩
  · simp [New, hok]
  · cases hc : env.fdfsCheckFile fn with
    | some msg => simp [UploadByFilename, hc, poolBoundsFixed]
    | none =>
      cases ht : env.trackerQueryStorageStorWithoutGroup <;>
        simp [UploadByFilename, hc, ht, poolBoundsFixed, getStoragePoolReq]
  · cases ht : env.trackerQueryStorageStorWithoutGroup <;>
      simp [UploadByBuffer, ht, poolBoundsFixed, getStoragePoolReq]
  · cases hc : env.fdfsCheckFile fn with
    | some msg => simp [UploadSlaveByFilename, hc, poolBoundsFixed]
    | none =>
      cases hsp : splitRemoteFileId rid with
      | error e => simp [UploadSlaveByFilename, hc, hsp, poolBoundsFixed]
      | ok pr =>
        obtain ⟨g2, f2⟩ := pr
        cases ht : env.trackerQueryStorageStorWithGroup g2 <;>
          simp [UploadSlaveByFilename, hc, hsp, ht, poolBoundsFixed, getStoragePoolReq]
  · cases hsp : splitRemoteFileId rid with
    | error e => simp [UploadSlaveByBuffer, hsp, poolBoundsFixed]
    | ok pr =>
      obtain ⟨g2, f2⟩ := pr
      cases ht : env.trackerQueryStorageStorWithGroup g2 <;>
        simp [UploadSlaveByBuffer, hsp, ht, poolBoundsFixed, getStoragePoolReq]
  · cases hc : env.fdfsCheckFile fn with
    | some msg => simp [UploadAppenderByFilename, hc, poolBoundsFixed]
    | none =>
      cases ht : env.trackerQueryStorageStorWithoutGroup <;>
        simp [UploadAppenderByFilename, hc, ht, poolBoundsFixed, getStoragePoolReq]
  · cases ht : env.trackerQueryStorageStorWithoutGroup <;>
      simp [UploadAppenderByBuffer, ht, poolBoundsFixed, getStoragePoolReq]
  · cases hsp : splitRemoteFileId rid with
    | error e => simp [DeleteFile, hsp, poolBoundsFixed]
    | ok pr =>
      obtain ⟨g2, f2⟩ := pr
      cases ht : env.trackerQueryStorageUpdate g2 f2 <;>
        simp [DeleteFile, hsp, ht, poolBoundsFixed, getStoragePoolReq]
  · cases hsp : splitRemoteFileId rid with
    | error e => simp [DownloadToFile, hsp, poolBoundsFixed]
    | ok pr =>
      obtain ⟨g2, f2⟩ := pr
      cases ht : env.trackerQueryStorageFetch g2 f2 <;>
        simp [DownloadToFile, hsp, ht, poolBoundsFixed, getStoragePoolReq]
  · cases hsp : splitRemoteFileId rid with
    | error e => simp [DownloadToBuffer, hsp, poolBoundsFixed]
    | ok pr =>
      obtain ⟨g2, f2⟩ := pr
      cases ht : env.trackerQueryStorageFetch g2 f2 <;>
        simp [DownloadToBuffer, hsp, ht, poolBoundsFixed, getStoragePoolReq]

theorem fixed_pool_bounds_witness :
    (New npList ⟨["10.0.1.70:22122", "10.0.1.69:22122"]⟩).2
      = (["10.0.1.70:22122", "10.0.1.69:22122"], 10, 150) :=
  (fixed_pool_bounds npList ⟨["10.0.1.70:22122", "10.0.1.69:22122"]⟩ envA
    ⟨["10.0.1.70:22122", "10.0.1.69:22122"], 10, 150⟩
    "/tmp/f" "/tmp/l" "_t" "jpg" "group1/abc.jpg" [] 0 0 rfl).1

/-- Claim C9: each operation issues exactly the tracker query matching its
kind: the fresh and appender uploads query for a store server without a
group; the slave uploads query the write-capable server of the group named in
the identifier; `DeleteFile` issues the update query and the two downloads
the fetch query for the (group, remoteFilename) pair of the identifier. -/
theorem tracker_query_kinds (env : Env) (fn lf pfx ext rid g f : String)
    (buf : List Nat) (off sz : Int)
    (hc : env.fdfsCheckFile fn = none)
    (hs : splitRemoteFileId rid = Except.ok (g, f)) :
    queriesOf (UploadByFilename env fn).2 = [TrackerQuery.storWithoutGroup] ∧
    queriesOf (UploadByBuffer env buf ext).2 = [TrackerQuery.storWithoutGroup] ∧
    queriesOf (UploadAppenderByFilename env fn).2 = [TrackerQuery.storWithoutGroup] ∧
    queriesOf (UploadAppenderByBuffer env buf ext).2 = [TrackerQuery.storWithoutGroup] ∧
    queriesOf (UploadSlaveByFilename env fn rid pfx).2 = [TrackerQuery.storWithGroup g] ∧
    queriesOf (UploadSlaveByBuffer env buf rid ext).2 = [TrackerQuery.storWithGroup g] ∧
    queriesOf (DeleteFile env rid).2 = [TrackerQuery.update g f] ∧
    queriesOf (DownloadToFile env lf rid off sz).2 = [TrackerQuery.fetch g f] ∧
    queriesOf (DownloadToBuffer env rid off sz).2 = [TrackerQuery.fetch g f] := by
  refine ⟨?_, ?_, ?_, ?_, ?_, ?_, ?_, ?_, ?_⟩
  · cases ht : env.trackerQueryStorageStorWithoutGroup <;>
      simp [UploadByFilename, queriesOf, hc, ht]
  · cases ht : env.trackerQueryStorageStorWithoutGroup <;>
      simp [UploadByBuffer, queriesOf, ht]
  · cases ht : env.trackerQueryStorageStorWithoutGroup <;>
      simp [UploadAppenderByFilename, queriesOf, hc, ht]
  · cases ht : env.trackerQueryStorageStorWithoutGroup <;>
      simp [UploadAppenderByBuffer, queriesOf, ht]
  · cases ht : env.trackerQueryStorageStorWithGroup g <;>
      simp [UploadSlaveByFilename, queriesOf, hc, hs, ht]
  · cases ht : env.trackerQueryStorageStorWithGroup g <;>
      simp [UploadSlaveByBuffer, queriesOf, hs, ht]
  · cases ht : env.trackerQueryStorageUpdate g f <;>
      simp [DeleteFile, queriesOf, hs, ht]
  · cases ht : env.trackerQueryStorageFetch g f <;>
      simp [DownloadToFile, queriesOf, hs, ht]
  · cases ht : env.trackerQueryStorageFetch g f <;>
      simp [DownloadToBuffer, queriesOf, hs, ht]

theorem tracker_query_kinds_witness :
    queriesOf (DeleteFile envA "group1/abc.jpg").2
      = [TrackerQuery.update "group1" "abc.jpg"] :=
  (tracker_query_kinds envA "/tmp/f" "/tmp/l" "_t" "jpg" "group1/abc.jpg"
    "group1" "abc.jpg" [] 0 0 rfl rfl).2.2.2.2.2.2.1

/-- The spec-modelled identifier split accepts a well-formed identifier,
rejects an identifier without a separator, and rejects an empty group or an
empty remote filename (spec sections 3 and 6). -/
theorem splitRemoteFileId_spec_examples :
    splitRemoteFileId "group1/M00/00/00/abc.jpg"
      = Except.ok ("group1", "M00/00/00/abc.jpg") ∧
    splitRemoteFileId "noSlashHere" = Except.error "malformed remoteFileId" ∧
    splitRemoteFileId "/abc" = Except.error "malformed remoteFileId" ∧
    splitRemoteFileId "abc/" = Except.error "malformed remoteFileId" :=
  ⟨rfl, rfl, rfl, rfl⟩

end Fastdfs
